import Mathlib

/-!
Verification development for the subscription reconciliation engine of the
`strautomator/functions` repository (`src/src/subscriptions.ts`).

The TypeScript code is shallowly embedded as Lean functions.  Timestamps are
modelled at day granularity as `Nat` (days since an epoch): the source compares
dates with `dayjs` either via `isAfter`, via `diff` in days/weeks, or via
`format("l")` (a calendar-day representation), all of which are faithfully
expressed at day granularity.  `dayjs` duration arithmetic is modelled by
`weeksToDays` and `monthsToDays`; the exact calendar length of a month is
abstracted as 30 days, and no theorem below depends on that numeric value.

Collaborators living in the `strautomator-core` package (not part of this
repository's `src/`) are modelled from the specification; each such definition
carries a doc comment starting with `Modelled from the spec:`.
-/

namespace Strautomator

/-- Subscription status, from `BaseSubscription.status`
(`"ACTIVE" | "PENDING" | "SUSPENDED" | "CANCELLED" | "EXPIRED"`). -/
inductive Status where
  | ACTIVE
  | PENDING
  | SUSPENDED
  | CANCELLED
  | EXPIRED
deriving DecidableEq, Repr

/-- Billing frequency, from the subscription `frequency` field
(`"monthly" | "yearly" | "lifetime"`). -/
inductive Frequency where
  | monthly
  | yearly
  | lifetime
deriving DecidableEq, Repr

/-- A payment record `{date, amount, currency}` (the `lastPayment` shape). -/
structure PaymentInfo where
  date : Nat
  amount : Nat
  currency : String
deriving DecidableEq, Repr

/-- The subscription record as manipulated by `subscriptions.ts`
(`BaseSubscription` with the PayPal-specific fields `frequency`,
`lastPayment`, `price`, `currency`). -/
structure Subscription where
  id : String
  userId : String
  status : Status
  frequency : Frequency
  dateCreated : Nat
  dateUpdated : Nat
  dateExpiry : Option Nat
  lastPayment : Option PaymentInfo
  price : Option Nat
  currency : Option String
  pendingUpdate : Bool
deriving DecidableEq, Repr

/-- The entitlement-relevant subset of `UserData`: `id`, `displayName`,
`isPro`, `subscriptionId`.  (The code's merge-patch that may additionally drop
a legacy embedded `user.subscription` blob when it is JS `null` touches no
field modelled here and no claim mentions it.) -/
structure UserData where
  id : String
  displayName : String
  isPro : Bool
  subscriptionId : Option String
deriving DecidableEq, Repr

/-- The live PayPal subscription data used by `checkPayPal`:
`{status, lastPayment, dateUpdated}` from
`core.paypal.subscriptions.getSubscription`. -/
structure PayPalLive where
  status : Status
  lastPayment : Option PaymentInfo
  dateUpdated : Nat
deriving DecidableEq, Repr

/-- `dayjs().add(w, "weeks")` at day granularity. -/
def weeksToDays (w : Nat) : Nat := 7 * w

/-- `dayjs().add(m, "months")` at day granularity; calendar month lengths are
abstracted as 30 days (no theorem depends on the numeric value). -/
def monthsToDays (m : Nat) : Nat := 30 * m

/-- `now.diff(earlier, "days")`: truncated, never negative (`dayjs` would
return a negative number for a future date; both sides of every comparison in
the source use it only against positive bounds, where clamping at zero and a
negative value decide the comparisons identically). -/
def diffDays (now earlier : Nat) : Nat := now - earlier

/-- `now.diff(earlier, "weeks")`: truncated week difference. -/
def diffWeeks (now earlier : Nat) : Nat := (now - earlier) / 7

/-- `["SUSPENDED", "CANCELLED", "EXPIRED"].includes(status)`. -/
def isTerminal (s : Status) : Bool :=
  s = Status.SUSPENDED ∨ s = Status.CANCELLED ∨ s = Status.EXPIRED

/-- `subscription.dateExpiry && now.isAfter(subscription.dateExpiry)`. -/
def pastExpiry (now : Nat) (s : Subscription) : Bool :=
  match s.dateExpiry with
  | some e => e < now
  | none => false

/-- `core.users.getById`: first stored user whose id matches. -/
def getById (users : List UserData) (id : String) : Option UserData :=
  users.find? (fun u => u.id = id)

/-- `core.users.update` with a full entitlement record: merge-patch persist,
replacing the stored record with the given one. -/
def putUser (users : List UserData) (u : UserData) : List UserData :=
  users.map (fun v => if v.id = u.id then u else v)

/-- Modelled from the spec: `core.subscriptions.update` (strautomator-core,
not under `src/`) persists the record; per §3 the transient `pendingUpdate`
flag is "never persisted as true", so the stored copy has it cleared. -/
def commitSubscription (s : Subscription) : Subscription :=
  { s with pendingUpdate := false }

/-- Modelled from the spec: the §4.1 `ActiveSubscriptionIndex` query "does
this user already have some other active subscription?" — some subscription
with status `ACTIVE` in the per-run index, belonging to the same user but
distinct from the given one. -/
def hasOtherActiveSubscription (index : List Subscription) (user : UserData)
    (sub : Subscription) : Bool :=
  index.any (fun t => t.userId = user.id ∧ t.id ≠ sub.id ∧ t.status = Status.ACTIVE)

/-- Modelled from the spec: `core.users.switchToFree(user, subscription)`
lives in strautomator-core, not under `src/`.  Per §4.3 step 6, §4.4 and §8
the downgrade applies only when the user has no other subscription present in
the `ActiveSubscriptionIndex`; per the §6 contract it clears the entitlement
flag and clears `subscriptionId` only if it still matches the given
subscription. -/
def switchToFree (index : List Subscription) (user : UserData)
    (sub : Subscription) : UserData :=
  if hasOtherActiveSubscription index user sub then user
  else
    { user with
      isPro := false
      subscriptionId :=
        if user.subscriptionId = some sub.id then none else user.subscriptionId }

/-- Result of one `validateSubscription` call: the subscription working copy
(`none` when the record was deleted from the store), the user record now held
by the store after any user-store write performed by the call, and the
caller's local `user` object after the call.  The two user views differ
exactly on the drift-healing rule: its store write builds a fresh
`updatedUser` object (subscriptions.ts lines 281-285), so the caller's local
object keeps `isPro = false` for the rest of the iteration; the
`switchToFree` downgrade, by contrast, is visible on the local object (spec
§4.3 step 2 gates on whether the user "is currently entitled").  Both are
`none` when the user did not resolve. -/
structure ValidateResult where
  sub : Option Subscription
  user : Option UserData
  localUser : Option UserData
deriving DecidableEq, Repr

/-- Shallow embedding of `validateSubscription` (subscriptions.ts).  Rules in
source order: (1) user unresolved — delete when `dateUpdated` is older than
the configured idle threshold (`settings.users.idleDays.default`, the
`idleDays` parameter), otherwise expire unless already `EXPIRED`;
(2) non-terminal status with a past `dateExpiry` — expire, mark pending, and
downgrade a PRO user via `switchToFree`; (3) `ACTIVE` subscription with a
non-PRO user — heal the user forward to PRO with this subscription's id via a
store write of a fresh record, which leaves the caller's local object
(`localUser`) unhealed. -/
def validateSubscription (idleDays now : Nat) (index : List Subscription)
    (subscription : Subscription) (user : Option UserData) : ValidateResult :=
  match user with
  | none =>
      if subscription.dateUpdated + idleDays < now then
        { sub := none, user := none, localUser := none }
      else if subscription.status ≠ Status.EXPIRED then
        { sub := some { subscription with
                        status := Status.EXPIRED
                        dateExpiry := some now
                        pendingUpdate := true }
          user := none
          localUser := none }
      else
        { sub := some subscription, user := none, localUser := none }
  | some u =>
      if !isTerminal subscription.status && pastExpiry now subscription then
        let s := { subscription with status := Status.EXPIRED, pendingUpdate := true }
        let w := if u.isPro then switchToFree index u s else u
        { sub := some s, user := some w, localUser := some w }
      else if subscription.status = Status.ACTIVE ∧ ¬u.isPro then
        { sub := some subscription
          user := some { u with isPro := true, subscriptionId := some subscription.id }
          localUser := some u }
      else
        { sub := some subscription, user := some u, localUser := some u }

/-- Shallow embedding of `saveSubscriptions`: iterate the working set and
persist (collect) exactly the records with `pendingUpdate` set. -/
def saveSubscriptions : List Subscription → List Subscription
  | [] => []
  | s :: rest =>
      if s.pendingUpdate then s :: saveSubscriptions rest else saveSubscriptions rest

/-- Environment of one reconciliation run: configuration, the run instant,
the per-run `ActiveSubscriptionIndex`, the live provider data, and fault
injectors for the fallible collaborator calls (`userFault id = true` makes
`core.users.getById id` throw; `paypalFault id = true` makes
`core.paypal.subscriptions.getSubscription(id)` throw;
`sponsorIds = none` models a falsy `core.github.getActiveSponsors()` result). -/
structure Env where
  idleDays : Nat
  now : Nat
  index : List Subscription
  userFault : String → Bool
  paypalFault : String → Bool
  paypalLive : String → PayPalLive
  sponsorIds : Option (List String)

/-- `checkNonActive`'s dangling-subscription repair (the body after
`core.subscriptions.delete`): fetch the owner and clear the stored
`subscriptionId` only if it still points at the deleted record
(`user && user.subscriptionId == subscription.id`), via a merge-patch with
`FieldValue.delete()`. -/
def checkNonActiveDanglingStep (users : List UserData) (s : Subscription) :
    List UserData :=
  match getById users s.userId with
  | some u =>
      if u.subscriptionId = some s.id then
        putUser users { u with subscriptionId := none }
      else users
  | none => users

/-- `checkNonActive`'s dangling-subscription loop: every item runs inside
`try`/`catch`.  `core.subscriptions.delete` runs first, then the fallible
`core.users.getById` and the conditional `subscriptionId` repair; a throwing
lookup (`userFault`) is caught per item, so the deletion already performed
stands, the repair is skipped, and the loop continues.  Returns the user
store and the ids of the deleted subscriptions, in loop order. -/
def checkNonActiveDanglingLoop (env : Env) :
    List UserData → List Subscription → List UserData × List String
  | users, [] => (users, [])
  | users, s :: rest =>
      let users' :=
        if env.userFault s.userId then users
        else checkNonActiveDanglingStep users s
      let o := checkNonActiveDanglingLoop env users' rest
      (o.1, s.id :: o.2)

/-- Outcome of `checkNonActive`'s validation loop.  `items` pairs each
processed subscription with its working copy (`none` when rule 1 deleted it);
`aborted` records that an uncaught per-item exception reached the routine's
outer handler (this loop has no per-item `try`), `rest` the then-unprocessed
tail. -/
structure NAOutcome where
  users : List UserData
  items : List (Subscription × Option Subscription)
  aborted : Bool
  rest : List Subscription
deriving Repr

/-- `checkNonActive`'s validation loop: for each non-active subscription,
resolve the user and run `validateSubscription`.  There is no `try` inside
this loop, so a throwing `core.users.getById` aborts the remaining items. -/
def checkNonActiveValidateLoop (env : Env) :
    List UserData → List Subscription → NAOutcome
  | users, [] => ⟨users, [], false, []⟩
  | users, s :: rest =>
      if env.userFault s.userId then ⟨users, [], true, s :: rest⟩
      else
        let r := validateSubscription env.idleDays env.now env.index s
          (getById users s.userId)
        let users' := match r.user with
          | some u => putUser users u
          | none => users
        let o := checkNonActiveValidateLoop env users' rest
        ⟨o.users, (s, r.sub) :: o.items, o.aborted, o.rest⟩

/-- Result of one routine run: the user store, the subscriptions actually
written by `saveSubscriptions`, the post-run stored working set, whether the
routine's outer catch fired, and how many loop items completed. -/
structure NARun where
  users : List UserData
  committed : List Subscription
  subsDb : List Subscription
  aborted : Bool
  processedCount : Nat
deriving Repr

/-- `checkNonActive`'s validation phase as a run: iterate and validate the
non-active working set, then `saveSubscriptions`.  When the loop threw, the
outer catch skips the commit: pending in-memory changes are lost and the
store keeps the original records of the non-deleted items plus the
unprocessed tail. -/
def checkNonActiveRun (env : Env) (users : List UserData)
    (subs : List Subscription) : NARun :=
  let o := checkNonActiveValidateLoop env users subs
  if o.aborted then
    { users := o.users
      committed := []
      subsDb :=
        (o.items.filterMap (fun p => if p.2.isSome then some p.1 else none)) ++ o.rest
      aborted := true
      processedCount := o.items.length }
  else
    { users := o.users
      committed := saveSubscriptions (o.items.filterMap (fun p => p.2))
      subsDb := (o.items.filterMap (fun p => p.2)).map commitSubscription
      aborted := false
      processedCount := o.items.length }

/-- One iteration of `checkGitHub`'s loop (inside its per-item `try`):
resolve the user, validate, then test `if (!user.isPro) continue` on the
caller's local `user` object — the stale view that a drift-healing store
write does not update, so a just-healed user is skipped this run — then skip
subscriptions younger than 30 days, then check membership of the live
sponsor list and expire/downgrade on absence.  Returns (working copy, user
record now in the store, whether the body threw).  When the user does not
resolve, `user.isPro` raises a TypeError which the per-item catch absorbs,
with `validateSubscription`'s in-memory mutation of the working copy
surviving. -/
def checkGitHubStep (env : Env) (users : List UserData) (s : Subscription) :
    Option Subscription × Option UserData × Bool :=
  if env.userFault s.userId then (some s, none, true)
  else
    let r := validateSubscription env.idleDays env.now env.index s
      (getById users s.userId)
    match r.localUser with
    | none => (r.sub, r.user, true)
    | some v =>
        match r.sub with
        | none => (none, r.user, false)
        | some s1 =>
            if !v.isPro then (some s1, r.user, false)
            else if diffDays env.now s1.dateCreated < 30 then (some s1, r.user, false)
            else
              match env.sponsorIds with
              | some ids =>
                  if s1.id ∈ ids then (some s1, r.user, false)
                  else
                    let s2 := { s1 with status := Status.EXPIRED, pendingUpdate := true }
                    (some s2, some (switchToFree env.index v s2), false)
              | none => (some s1, r.user, false)

/-- Outcome of a provider-sync loop: the user store and, per item, the
working copy (`none` when deleted) and whether that item's body threw. -/
structure SyncLoopOut where
  users : List UserData
  items : List (Option Subscription × Bool)
deriving Repr

/-- `checkGitHub`'s loop: every item runs inside `try`/`catch`, so the loop
always continues to the next subscription. -/
def checkGitHubLoop (env : Env) :
    List UserData → List Subscription → SyncLoopOut
  | users, [] => ⟨users, []⟩
  | users, s :: rest =>
      let t := checkGitHubStep env users s
      let users' := match t.2.1 with
        | some u => putUser users u
        | none => users
      let o := checkGitHubLoop env users' rest
      ⟨o.users, (t.1, t.2.2) :: o.items⟩

/-- Result of a provider-sync routine run. -/
structure SyncRun where
  users : List UserData
  committed : List Subscription
  subsDb : List Subscription
deriving Repr

/-- `checkGitHub` as a run: fetch the live sponsor list once, loop with
per-item catch, then `saveSubscriptions` over the whole working set. -/
def checkGitHubRun (env : Env) (users : List UserData)
    (subs : List Subscription) : SyncRun :=
  let o := checkGitHubLoop env users subs
  { users := o.users
    committed := saveSubscriptions (o.items.filterMap (fun p => p.1))
    subsDb := (o.items.filterMap (fun p => p.1)).map commitSubscription }

/-- `checkPayPal`'s payment-data sync: when the live data carries a last
payment whose calendar day differs from the stored one (or none is stored),
overwrite `lastPayment`, `price` and `currency` and mark pending. -/
def syncPaymentData (live : PayPalLive) (s : Subscription) : Subscription :=
  match live.lastPayment with
  | some lp =>
      if (match s.lastPayment with
          | none => true
          | some cur => cur.date ≠ lp.date : Bool) then
        { s with
          lastPayment := some lp
          price := some lp.amount
          currency := some lp.currency
          pendingUpdate := true }
      else s
  | none => s

/-- `checkPayPal`'s status adoption: when the local status differs from the
live one, adopt it and mark pending. -/
def adoptLiveStatus (live : PayPalLive) (s : Subscription) : Subscription :=
  if s.status ≠ live.status then
    { s with status := live.status, pendingUpdate := true }
  else s

/-- `checkPayPal`'s grace-period expiry:
`dayjs.utc(liveData.lastPayment?.date || liveData.dateUpdated)` plus 4 weeks
for a monthly subscription, 11 months otherwise. -/
def graceExpiryDate (live : PayPalLive) (s : Subscription) : Nat :=
  let lastPaymentDate :=
    match live.lastPayment with
    | some lp => lp.date
    | none => live.dateUpdated
  if s.frequency = Frequency.monthly then lastPaymentDate + weeksToDays 4
  else lastPaymentDate + monthsToDays 11

/-- `checkPayPal`'s provider-diffing block after the live fetch: payment-data
sync, then (for non-lifetime subscriptions) status adoption and, when the
possibly-updated status is terminal, the grace-period downgrade via
`switchToFree`. -/
def paypalProviderSync (now : Nat) (index : List Subscription)
    (live : PayPalLive) (u : UserData) (s : Subscription) :
    Subscription × UserData :=
  let s1 := syncPaymentData live s
  if s1.frequency = Frequency.lifetime then (s1, u)
  else
    let s2 := adoptLiveStatus live s1
    if isTerminal s2.status then
      if graceExpiryDate live s2 < now then (s2, switchToFree index u s2)
      else (s2, u)
    else (s2, u)

/-- One iteration of `checkPayPal`'s loop (inside its per-item `try`):
resolve the user, validate, then test `if (!user || !user.isPro) continue` on
the caller's local `user` object — the stale view that a drift-healing store
write does not update, so a just-healed user is skipped this run — then skip
non-lifetime subscriptions younger than 4 weeks, fetch the live data (which
may throw — caught per item, keeping the mutations made so far), then run
the provider-diffing block. -/
def checkPayPalStep (env : Env) (users : List UserData) (s : Subscription) :
    Option Subscription × Option UserData × Bool :=
  if env.userFault s.userId then (some s, none, true)
  else
    let r := validateSubscription env.idleDays env.now env.index s
      (getById users s.userId)
    match r.localUser with
    | none => (r.sub, r.user, false)
    | some v =>
        match r.sub with
        | none => (none, r.user, false)
        | some s1 =>
            if !v.isPro then (some s1, r.user, false)
            else if s1.frequency ≠ Frequency.lifetime ∧ diffWeeks env.now s1.dateCreated < 4 then
              (some s1, r.user, false)
            else if env.paypalFault s.id then (some s1, r.user, true)
            else
              let live := env.paypalLive s.id
              let p := paypalProviderSync env.now env.index live v s1
              (some p.1, some p.2, false)

/-- `checkPayPal`'s loop: every item runs inside `try`/`catch`, so the loop
always continues to the next subscription. -/
def checkPayPalLoop (env : Env) :
    List UserData → List Subscription → SyncLoopOut
  | users, [] => ⟨users, []⟩
  | users, s :: rest =>
      let t := checkPayPalStep env users s
      let users' := match t.2.1 with
        | some u => putUser users u
        | none => users
      let o := checkPayPalLoop env users' rest
      ⟨o.users, (t.1, t.2.2) :: o.items⟩

/-- `checkPayPal` as a run: loop with per-item catch, then
`saveSubscriptions` over the whole working set. -/
def checkPayPalRun (env : Env) (users : List UserData)
    (subs : List Subscription) : SyncRun :=
  let o := checkPayPalLoop env users subs
  { users := o.users
    committed := saveSubscriptions (o.items.filterMap (fun p => p.1))
    subsDb := (o.items.filterMap (fun p => p.1)).map commitSubscription }

/-- Two user stores resolve the same ids (presence view used by the
idempotence argument: in-run writes never add or remove user records). -/
def presEq (a b : List UserData) : Prop :=
  ∀ id, (getById a id).isSome = (getById b id).isSome

/-- Concrete fixture: a PayPal run instant 100 with live data reporting a
`SUSPENDED` monthly subscription last paid on day 50. -/
def envC1 : Env :=
  ⟨90, 100, [], fun _ => false, fun _ => false,
   fun _ => ⟨Status.SUSPENDED, some ⟨50, 500, "USD"⟩, 99⟩, none⟩

/-- Concrete fixture: a monthly PayPal subscription created on day 0, last
paid on day 50, locally still `ACTIVE`. -/
def subC1 : Subscription :=
  ⟨"P", "u1", Status.ACTIVE, Frequency.monthly, 0, 0, none,
   some ⟨50, 500, "USD"⟩, some 500, some "USD", false⟩

/-- Concrete fixture: the PRO owner of `subC1`. -/
def userC1 : UserData := ⟨"u1", "Ann", true, some "P"⟩

/-- Concrete fixture: an environment whose `core.users.getById` throws for
user id `nu` and whose PayPal fetch throws for subscription id `pp`. -/
def envC4 : Env :=
  ⟨90, 100, [], fun id => decide (id = "nu"), fun id => decide (id = "pp"),
   fun _ => ⟨Status.ACTIVE, none, 0⟩, some []⟩

/-- Concrete fixture: the same environment with no faults. -/
def envC4ok : Env :=
  ⟨90, 100, [], fun _ => false, fun _ => false,
   fun _ => ⟨Status.ACTIVE, none, 0⟩, some []⟩

/-- Concrete fixture: a github subscription whose user record is missing, so
`user.isPro` raises inside the loop body. -/
def subC4g : Subscription :=
  ⟨"g1", "gu", Status.ACTIVE, Frequency.monthly, 0, 60, none, none, none,
   none, false⟩

/-- Concrete fixture: a PayPal subscription whose live fetch throws. -/
def subC4p : Subscription :=
  ⟨"pp", "pu", Status.ACTIVE, Frequency.monthly, 0, 60, none, none, none,
   none, false⟩

/-- Concrete fixture: the PRO owner of `subC4p`. -/
def userC4p : UserData := ⟨"pu", "Bob", true, some "pp"⟩

/-- Concrete fixture: a subscription whose `core.users.getById` throws. -/
def subC4n : Subscription :=
  ⟨"n1", "nu", Status.PENDING, Frequency.monthly, 0, 60, none, none, none,
   none, false⟩

/-- Concrete fixture: a subscription with a missing user and a recent
`dateUpdated`, which a clean validation pass expires and commits. -/
def subC4b : Subscription :=
  ⟨"n2", "mu", Status.PENDING, Frequency.monthly, 0, 60, none, none, none,
   none, false⟩

lemma presEq_refl (a : List UserData) : presEq a a := fun _ => rfl

lemma presEq_trans {a b c : List UserData} (h1 : presEq a b) (h2 : presEq b c) :
    presEq a c := fun id => (h1 id).trans (h2 id)

lemma getById_putUser_isSome (us : List UserData) (u : UserData) (x : String) :
    (getById (putUser us u) x).isSome = (getById us x).isSome := by
  induction us with
  | nil => rfl
  | cons v t ih =>
      by_cases h1 : v.id = u.id
      · by_cases h2 : v.id = x
        · simp [putUser, getById, List.find?, h1, h2, h1 ▸ h2]
        · have h3 : ¬u.id = x := fun h => h2 (h1.trans h)
          simpa [putUser, getById, List.find?, h1, h2, h3] using ih
      · by_cases h2 : v.id = x
        · have h3 : ¬x = u.id := fun hh => h1 (by rw [h2, hh])
          simp [putUser, getById, List.find?, h1, h2, h3]
        · simpa [putUser, getById, List.find?, h1, h2] using ih

lemma presEq_putUser (us : List UserData) (u : UserData) :
    presEq us (putUser us u) :=
  fun id => (getById_putUser_isSome us u id).symm

lemma getById_putUser_eq (us : List UserData) (u w : UserData) (x : String)
    (hu : getById us x = some u) (hw : w.id = u.id) :
    getById (putUser us w) x = some w := by
  induction us with
  | nil => simp [getById] at hu
  | cons v t ih =>
      by_cases h2 : v.id = x
      · have hv : u = v := by
          simp [getById, List.find?, h2] at hu
          exact hu.symm
        have hwx : w.id = x := by rw [hw, hv, h2]
        have h1 : v.id = w.id := by rw [hwx, h2]
        simp [putUser, getById, List.find?, h1, hwx]
      · have hu' : getById t x = some u := by
          simpa [getById, List.find?, h2] using hu
        by_cases h1 : v.id = w.id
        · have h3 : ¬w.id = x := fun h => h2 (h1.trans h)
          simpa [putUser, getById, List.find?, h1, h3] using ih hu'
        · simpa [putUser, getById, List.find?, h1, h2] using ih hu'

/-- `saveSubscriptions` writes exactly the pending records of the working
set. -/
lemma saveSubscriptions_eq_filter (l : List Subscription) :
    saveSubscriptions l = l.filter (fun s => s.pendingUpdate) := by
  induction l with
  | nil => rfl
  | cons s rest ih =>
      by_cases h : s.pendingUpdate <;> simp [saveSubscriptions, h, ih]

/-- `validateSubscription` only ever touches `status`, `dateExpiry` and
`pendingUpdate` on the subscription record. -/
lemma validateSubscription_sub_fields (idleDays now : Nat)
    (idx : List Subscription) (s s1 : Subscription) (u : Option UserData)
    (h : (validateSubscription idleDays now idx s u).sub = some s1) :
    s1.id = s.id ∧ s1.userId = s.userId ∧ s1.frequency = s.frequency ∧
      s1.dateCreated = s.dateCreated ∧ s1.dateUpdated = s.dateUpdated ∧
      s1.lastPayment = s.lastPayment := by
  cases u with
  | none =>
      simp only [validateSubscription] at h
      split at h
      · simp at h
      · split at h
        · rw [Option.some.injEq] at h
          subst h
          simp
        · rw [Option.some.injEq] at h
          subst h
          simp
  | some u =>
      simp only [validateSubscription] at h
      split at h
      · rw [Option.some.injEq] at h
        subst h
        simp
      · split at h
        · rw [Option.some.injEq] at h
          subst h
          simp
        · rw [Option.some.injEq] at h
          subst h
          simp

/-- The store view and the caller's local view of the user resolve
together: both are `none` exactly when the user id did not resolve. -/
lemma validateSubscription_user_localUser_isSome (idleDays now : Nat)
    (idx : List Subscription) (s : Subscription) (u : Option UserData) :
    ((validateSubscription idleDays now idx s u).user).isSome
      = ((validateSubscription idleDays now idx s u).localUser).isSome := by
  cases u with
  | none =>
      simp only [validateSubscription]
      split
      · rfl
      · split
        · rfl
        · rfl
  | some u =>
      simp only [validateSubscription]
      split
      · rfl
      · split
        · rfl
        · rfl

/-- When the caller's local view of the user is entitled after validation,
the store holds the same record: the drift-healing rule (the only point
where the two views differ) fires only for a non-PRO local object. -/
lemma validateSubscription_user_of_localUser_pro (idleDays now : Nat)
    (idx : List Subscription) (s : Subscription) (u0 : Option UserData)
    (u : UserData)
    (hl : (validateSubscription idleDays now idx s u0).localUser = some u)
    (hpro : u.isPro = true) :
    (validateSubscription idleDays now idx s u0).user = some u := by
  cases u0 with
  | none =>
      simp only [validateSubscription] at hl ⊢
      split at hl
      · simp at hl
      · split at hl
        · simp at hl
        · simp at hl
  | some u0 =>
      simp only [validateSubscription] at hl ⊢
      by_cases hguard : (!isTerminal s.status && pastExpiry now s) = true
      · rw [if_pos hguard] at hl ⊢
        exact hl
      · rw [if_neg hguard] at hl ⊢
        by_cases hheal : s.status = Status.ACTIVE ∧ ¬u0.isPro
        · rw [if_pos hheal] at hl ⊢
          simp only [Option.some.injEq] at hl
          subst hl
          exact absurd hpro (by simpa using hheal.2)
        · rw [if_neg hheal] at hl ⊢
          exact hl

/-- Re-validating a committed output of `validateSubscription` at the same
instant changes nothing: the stored copy (flag cleared) is returned as-is.
The second lookup may see a different user record, but must resolve iff the
first one did. -/
lemma validateSubscription_stable (idleDays now : Nat)
    (idx idx2 : List Subscription) (s s1 : Subscription)
    (u1 u2 : Option UserData) (hpres : u1.isSome = u2.isSome)
    (h : (validateSubscription idleDays now idx s u1).sub = some s1) :
    (validateSubscription idleDays now idx2 (commitSubscription s1) u2).sub
      = some (commitSubscription s1) := by
  cases u1 with
  | none =>
      have hu2 : u2 = none := by
        cases u2 with
        | none => rfl
        | some _ => simp at hpres
      subst hu2
      simp only [validateSubscription] at h
      split at h
      · simp at h
      · rename_i hold
        split at h
        · rw [Option.some.injEq] at h
          subst h
          simp [validateSubscription, commitSubscription, hold]
        · rename_i hexp
          rw [Option.some.injEq] at h
          subst h
          simp only [Decidable.not_not] at hexp
          simp [validateSubscription, commitSubscription, hold, hexp]
  | some u =>
      obtain ⟨u', hu2⟩ : ∃ u', u2 = some u' := by
        cases u2 with
        | none => simp at hpres
        | some u' => exact ⟨u', rfl⟩
      subst hu2
      simp only [validateSubscription] at h
      split at h
      · rename_i hguard
        rw [Option.some.injEq] at h
        subst h
        simp [validateSubscription, commitSubscription, isTerminal]
      · rename_i hguard
        split at h
        · rw [Option.some.injEq] at h
          subst h
          simp only [validateSubscription, commitSubscription]
          rw [if_neg]
          · split
            · rfl
            · rfl
          · simpa [commitSubscription, isTerminal, pastExpiry] using hguard
        · rw [Option.some.injEq] at h
          subst h
          simp only [validateSubscription, commitSubscription]
          rw [if_neg]
          · split
            · rfl
            · rfl
          · simpa [commitSubscription, isTerminal, pastExpiry] using hguard

lemma presEq_symm {a b : List UserData} (h : presEq a b) : presEq b a :=
  fun id => (h id).symm

lemma commitSubscription_idem (s : Subscription) :
    commitSubscription (commitSubscription s) = commitSubscription s := rfl

lemma commitSubscription_pendingUpdate (s : Subscription) :
    (commitSubscription s).pendingUpdate = false := rfl

lemma commitSubscription_userId (s : Subscription) :
    (commitSubscription s).userId = s.userId := rfl

lemma filter_pending_map_commit (l : List Subscription) :
    (l.map commitSubscription).filter (fun s => s.pendingUpdate) = [] := by
  induction l with
  | nil => rfl
  | cons s rest ih => simp [commitSubscription, ih]

lemma filterMap_of_map_eq_map_some
    (l : List (Subscription × Option Subscription)) (m : List Subscription)
    (h : l.map (fun p => p.2) = m.map some) :
    l.filterMap (fun p => p.2) = m := by
  induction l generalizing m with
  | nil =>
      cases m with
      | nil => rfl
      | cons a t => simp at h
  | cons p t ih =>
      cases m with
      | nil => simp at h
      | cons a t' =>
          simp only [List.map_cons, List.cons.injEq] at h
          simp [List.filterMap_cons, h.1, ih t' h.2]

lemma checkNonActiveValidateLoop_not_aborted (env : Env)
    (henv : env.userFault = fun _ => false) :
    ∀ (subs : List Subscription) (users : List UserData),
      (checkNonActiveValidateLoop env users subs).aborted = false := by
  intro subs
  induction subs with
  | nil => intro users; rfl
  | cons s rest ih =>
      intro users
      simp [checkNonActiveValidateLoop, henv, ih]

lemma checkNonActiveValidateLoop_presEq (env : Env)
    (henv : env.userFault = fun _ => false) :
    ∀ (subs : List Subscription) (users : List UserData),
      presEq users (checkNonActiveValidateLoop env users subs).users := by
  intro subs
  induction subs with
  | nil => intro users; exact presEq_refl users
  | cons s rest ih =>
      intro users
      simp only [checkNonActiveValidateLoop, henv]
      cases hr : (validateSubscription env.idleDays env.now env.index s
          (getById users s.userId)).user with
      | none => simpa [hr] using ih users
      | some u =>
          simp only [hr]
          exact presEq_trans (presEq_putUser users u) (ih (putUser users u))

/-- Re-running the validation loop on the committed output of a first run, at
the same instant, with any presence-equivalent user store, leaves every stored
record untouched. -/
lemma checkNonActiveValidateLoop_second (env : Env)
    (henv : env.userFault = fun _ => false) :
    ∀ (subs : List Subscription) (users users2 : List UserData),
      presEq users users2 →
      ((checkNonActiveValidateLoop env users2
          (((checkNonActiveValidateLoop env users subs).items.filterMap
              (fun p => p.2)).map commitSubscription)).items.map (fun p => p.2))
        = (((checkNonActiveValidateLoop env users subs).items.filterMap
              (fun p => p.2)).map commitSubscription).map some := by
  intro subs
  induction subs with
  | nil =>
      intro users users2 h
      simp [checkNonActiveValidateLoop]
  | cons s rest ih =>
      intro users users2 h
      simp only [checkNonActiveValidateLoop, henv, Bool.false_eq_true, if_false]
      cases hr : (validateSubscription env.idleDays env.now env.index s
          (getById users s.userId)).sub with
      | none =>
          cases hu : (validateSubscription env.idleDays env.now env.index s
              (getById users s.userId)).user with
          | none =>
              simpa [hr, hu] using
                ih users users2 h
          | some u =>
              simpa [hr, hu] using
                ih (putUser users u) users2
                  (presEq_trans (presEq_symm (presEq_putUser users u)) h)
      | some s1 =>
          have hpres : (getById users s.userId).isSome
              = (getById users2 s.userId).isSome := h s.userId
          have huid : s1.userId = s.userId :=
            (validateSubscription_sub_fields env.idleDays env.now env.index s s1
              (getById users s.userId) hr).2.1
          have hstable :=
            validateSubscription_stable env.idleDays env.now env.index env.index
              s s1 (getById users s.userId) (getById users2 s.userId) hpres hr
          cases hu : (validateSubscription env.idleDays env.now env.index s
              (getById users s.userId)).user with
          | none =>
              have hrest := ih users users2 h
              cases hu2 : (validateSubscription env.idleDays env.now env.index
                  (commitSubscription s1) (getById users2 s.userId)).user with
              | none =>
                  simp only [hr, hu, List.filterMap_cons, List.map_cons,
                    checkNonActiveValidateLoop, henv, Bool.false_eq_true, if_false,
                    commitSubscription_userId, huid, hu2, hstable, List.cons.injEq]
                  exact ⟨trivial, hrest⟩
              | some u2 =>
                  have hrest := ih users (putUser users2 u2)
                    (presEq_trans h (presEq_putUser users2 u2))
                  simp only [hr, hu, List.filterMap_cons, List.map_cons,
                    checkNonActiveValidateLoop, henv, Bool.false_eq_true, if_false,
                    commitSubscription_userId, huid, hu2, hstable, List.cons.injEq]
                  exact ⟨trivial, hrest⟩
          | some u =>
              have h' : presEq (putUser users u) users2 :=
                presEq_trans (presEq_symm (presEq_putUser users u)) h
              cases hu2 : (validateSubscription env.idleDays env.now env.index
                  (commitSubscription s1) (getById users2 s.userId)).user with
              | none =>
                  have hrest := ih (putUser users u) users2 h'
                  simp only [hr, hu, List.filterMap_cons, List.map_cons,
                    checkNonActiveValidateLoop, henv, Bool.false_eq_true, if_false,
                    commitSubscription_userId, huid, hu2, hstable, List.cons.injEq]
                  exact ⟨trivial, hrest⟩
              | some u2 =>
                  have hrest := ih (putUser users u) (putUser users2 u2)
                    (presEq_trans h' (presEq_putUser users2 u2))
                  simp only [hr, hu, List.filterMap_cons, List.map_cons,
                    checkNonActiveValidateLoop, henv, Bool.false_eq_true, if_false,
                    commitSubscription_userId, huid, hu2, hstable, List.cons.injEq]
                  exact ⟨trivial, hrest⟩

lemma map_commit_idem (l : List Subscription) :
    (l.map commitSubscription).map commitSubscription = l.map commitSubscription := by
  induction l with
  | nil => rfl
  | cons s rest ih => simp [ih, commitSubscription_idem]

lemma checkGitHubLoop_append (env : Env) :
    ∀ (xs ys : List Subscription) (users : List UserData),
      checkGitHubLoop env users (xs ++ ys)
        = ⟨(checkGitHubLoop env (checkGitHubLoop env users xs).users ys).users,
           (checkGitHubLoop env users xs).items
             ++ (checkGitHubLoop env (checkGitHubLoop env users xs).users ys).items⟩ := by
  intro xs
  induction xs with
  | nil => intro ys users; simp [checkGitHubLoop]
  | cons s xs' ih =>
      intro ys users
      simp only [List.cons_append, checkGitHubLoop, List.append_eq]
      rw [ih]

lemma checkGitHubLoop_length (env : Env) :
    ∀ (subs : List Subscription) (users : List UserData),
      (checkGitHubLoop env users subs).items.length = subs.length := by
  intro subs
  induction subs with
  | nil => intro users; rfl
  | cons s rest ih => intro users; simp [checkGitHubLoop, ih]

lemma checkPayPalLoop_append (env : Env) :
    ∀ (xs ys : List Subscription) (users : List UserData),
      checkPayPalLoop env users (xs ++ ys)
        = ⟨(checkPayPalLoop env (checkPayPalLoop env users xs).users ys).users,
           (checkPayPalLoop env users xs).items
             ++ (checkPayPalLoop env (checkPayPalLoop env users xs).users ys).items⟩ := by
  intro xs
  induction xs with
  | nil => intro ys users; simp [checkPayPalLoop]
  | cons s xs' ih =>
      intro ys users
      simp only [List.cons_append, checkPayPalLoop, List.append_eq]
      rw [ih]

lemma checkNonActiveDanglingLoop_append (env : Env) :
    ∀ (xs ys : List Subscription) (users : List UserData),
      checkNonActiveDanglingLoop env users (xs ++ ys)
        = ((checkNonActiveDanglingLoop env
              (checkNonActiveDanglingLoop env users xs).1 ys).1,
           (checkNonActiveDanglingLoop env users xs).2
             ++ (checkNonActiveDanglingLoop env
                  (checkNonActiveDanglingLoop env users xs).1 ys).2) := by
  intro xs
  induction xs with
  | nil => intro ys users; simp [checkNonActiveDanglingLoop]
  | cons s xs' ih =>
      intro ys users
      simp only [List.cons_append, checkNonActiveDanglingLoop, List.append_eq]
      rw [ih]

lemma checkNonActiveDanglingLoop_deleted (env : Env) :
    ∀ (subs : List Subscription) (users : List UserData),
      (checkNonActiveDanglingLoop env users subs).2
        = subs.map (fun t => t.id) := by
  intro subs
  induction subs with
  | nil => intro users; rfl
  | cons s rest ih => intro users; simp [checkNonActiveDanglingLoop, ih]

lemma checkPayPalLoop_length (env : Env) :
    ∀ (subs : List Subscription) (users : List UserData),
      (checkPayPalLoop env users subs).items.length = subs.length := by
  intro subs
  induction subs with
  | nil => intro users; rfl
  | cons s rest ih => intro users; simp [checkPayPalLoop, ih]

/-- C9: for a subscription whose user id does not resolve,
`validateSubscription` deletes the record outright when `dateUpdated` is
older than the configured idle threshold; otherwise it sets
`status = EXPIRED`, `dateExpiry = now` and marks pending when the status is
not already `EXPIRED`, and changes nothing when it is. -/
theorem claimC9_user_unresolved (idleDays now : Nat) (idx : List Subscription)
    (s : Subscription) :
    (s.dateUpdated + idleDays < now →
        validateSubscription idleDays now idx s none = ⟨none, none, none⟩) ∧
    (¬(s.dateUpdated + idleDays < now) → s.status ≠ Status.EXPIRED →
        validateSubscription idleDays now idx s none
          = ⟨some { s with
                      status := Status.EXPIRED
                      dateExpiry := some now
                      pendingUpdate := true }, none, none⟩) ∧
    (¬(s.dateUpdated + idleDays < now) → s.status = Status.EXPIRED →
        validateSubscription idleDays now idx s none = ⟨some s, none, none⟩) := by
  refine ⟨fun h => ?_, fun h h2 => ?_, fun h h2 => ?_⟩
  · simp [validateSubscription, h]
  · simp [validateSubscription, h, h2]
  · simp [validateSubscription, h, h2]

/-- Witness for C9 at concrete inputs exercising all three branches. -/
theorem claimC9_user_unresolved_witness :
    ((10 : Nat) + 90 < 200 ∧
      validateSubscription 90 200 []
        (⟨"s1", "u1", Status.ACTIVE, Frequency.monthly, 0, 10, none, none,
          none, none, false⟩ : Subscription) none = ⟨none, none, none⟩) ∧
    (¬((150 : Nat) + 90 < 200) ∧
      validateSubscription 90 200 []
        (⟨"s2", "u2", Status.ACTIVE, Frequency.monthly, 0, 150, none, none,
          none, none, false⟩ : Subscription) none
        = ⟨some ⟨"s2", "u2", Status.EXPIRED, Frequency.monthly, 0, 150,
            some 200, none, none, none, true⟩, none, none⟩) ∧
    (¬((150 : Nat) + 90 < 200) ∧
      validateSubscription 90 200 []
        (⟨"s3", "u3", Status.EXPIRED, Frequency.monthly, 0, 150, none, none,
          none, none, false⟩ : Subscription) none
        = ⟨some ⟨"s3", "u3", Status.EXPIRED, Frequency.monthly, 0, 150, none,
            none, none, none, false⟩, none, none⟩) :=
  ⟨⟨by decide,
    (claimC9_user_unresolved 90 200 [] _).1 (by decide)⟩,
   ⟨by decide,
    (claimC9_user_unresolved 90 200 [] _).2.1 (by decide) (by decide)⟩,
   ⟨by decide,
    (claimC9_user_unresolved 90 200 [] _).2.2 (by decide) (by decide)⟩⟩

/-- C8: when the orphan cleaner deletes a dangling subscription, the owning
user's `subscriptionId` is cleared in the store if and only if it still
equals the deleted subscription's id; otherwise the user store is untouched. -/
theorem claimC8_orphan_clear_iff (users : List UserData) (s : Subscription)
    (u : UserData) (hu : getById users s.userId = some u) :
    (u.subscriptionId = some s.id →
        checkNonActiveDanglingStep users s
            = putUser users { u with subscriptionId := none } ∧
        getById (checkNonActiveDanglingStep users s) s.userId
            = some { u with subscriptionId := none }) ∧
    (u.subscriptionId ≠ some s.id →
        checkNonActiveDanglingStep users s = users) := by
  constructor
  · intro h
    have hstep : checkNonActiveDanglingStep users s
        = putUser users { u with subscriptionId := none } := by
      simp [checkNonActiveDanglingStep, hu, h]
    refine ⟨hstep, ?_⟩
    rw [hstep]
    exact getById_putUser_eq users u _ s.userId hu rfl
  · intro h
    simp [checkNonActiveDanglingStep, hu, h]

/-- Witness for C8: one user still pointing at the deleted record (cleared),
one pointing elsewhere (untouched). -/
theorem claimC8_orphan_clear_iff_witness :
    (getById [(⟨"u1", "Ann", true, some "s1"⟩ : UserData)] "u1"
        = some ⟨"u1", "Ann", true, some "s1"⟩ ∧
      (some "s1" : Option String) = some "s1" ∧
      getById (checkNonActiveDanglingStep [⟨"u1", "Ann", true, some "s1"⟩]
          (⟨"s1", "u1", Status.CANCELLED, Frequency.monthly, 0, 0, none, none,
            none, none, false⟩ : Subscription)) "u1"
        = some ⟨"u1", "Ann", true, none⟩) ∧
    (getById [(⟨"u2", "Bob", true, some "other"⟩ : UserData)] "u2"
        = some ⟨"u2", "Bob", true, some "other"⟩ ∧
      (some "other" : Option String) ≠ some "s2" ∧
      checkNonActiveDanglingStep [⟨"u2", "Bob", true, some "other"⟩]
          (⟨"s2", "u2", Status.CANCELLED, Frequency.monthly, 0, 0, none, none,
            none, none, false⟩ : Subscription)
        = [⟨"u2", "Bob", true, some "other"⟩]) :=
  ⟨⟨by decide, by decide,
    ((claimC8_orphan_clear_iff [⟨"u1", "Ann", true, some "s1"⟩]
        ⟨"s1", "u1", Status.CANCELLED, Frequency.monthly, 0, 0, none, none,
          none, none, false⟩ ⟨"u1", "Ann", true, some "s1"⟩
        (by decide)).1 (by decide)).2⟩,
   ⟨by decide, by decide,
    (claimC8_orphan_clear_iff [⟨"u2", "Bob", true, some "other"⟩]
        ⟨"s2", "u2", Status.CANCELLED, Frequency.monthly, 0, 0, none, none,
          none, none, false⟩ ⟨"u2", "Bob", true, some "other"⟩
        (by decide)).2 (by decide)⟩⟩

/-- C3 fails as stated: an `ACTIVE` subscription whose `dateExpiry` already
passed is expired by rule 2 before the drift-healing rule can run, and a
non-PRO user stays non-PRO (no `switchToFree` since `isPro` is false).  At
this input the claim's required outcome `isPro = true` does not hold. -/
theorem claimC3_counterexample :
    (⟨"s1", "u1", Status.ACTIVE, Frequency.monthly, 0, 0, some 5, none, none,
        none, false⟩ : Subscription).status = Status.ACTIVE ∧
    (⟨"u1", "Ann", false, none⟩ : UserData).isPro = false ∧
    ((validateSubscription 90 10 []
        ⟨"s1", "u1", Status.ACTIVE, Frequency.monthly, 0, 0, some 5, none,
          none, none, false⟩
        (some ⟨"u1", "Ann", false, none⟩)).user.map (fun v => v.isPro))
      = some false ∧
    ((validateSubscription 90 10 []
        ⟨"s1", "u1", Status.ACTIVE, Frequency.monthly, 0, 0, some 5, none,
          none, none, false⟩
        (some ⟨"u1", "Ann", false, none⟩)).user.map (fun v => v.subscriptionId))
      = some none := by
  decide

/-- C3 (amended): for every subscription with `status = ACTIVE` whose
`dateExpiry` is unset or not yet past (so the expiry rule does not preempt),
and whose resolved user has `isPro = false`, one `validateSubscription` pass
gives the user `isPro = true` and `subscriptionId` equal to the
subscription's id, leaving the subscription record unchanged. -/
theorem claimC3_amended (idleDays now : Nat) (idx : List Subscription)
    (s : Subscription) (u : UserData)
    (hactive : s.status = Status.ACTIVE) (hnp : u.isPro = false)
    (hnx : pastExpiry now s = false) :
    (validateSubscription idleDays now idx s (some u)).user
        = some { u with isPro := true, subscriptionId := some s.id } ∧
    (validateSubscription idleDays now idx s (some u)).sub = some s := by
  simp [validateSubscription, hactive, hnp, hnx, isTerminal]

/-- Witness for the amended C3. -/
theorem claimC3_amended_witness :
    (⟨"s1", "u1", Status.ACTIVE, Frequency.monthly, 0, 0, none, none, none,
        none, false⟩ : Subscription).status = Status.ACTIVE ∧
    (⟨"u1", "Ann", false, none⟩ : UserData).isPro = false ∧
    pastExpiry 10 ⟨"s1", "u1", Status.ACTIVE, Frequency.monthly, 0, 0, none,
        none, none, none, false⟩ = false ∧
    (validateSubscription 90 10 []
        ⟨"s1", "u1", Status.ACTIVE, Frequency.monthly, 0, 0, none, none, none,
          none, false⟩
        (some ⟨"u1", "Ann", false, none⟩)).user
      = some ⟨"u1", "Ann", true, some "s1"⟩ :=
  ⟨by decide, by decide, by decide,
   (claimC3_amended 90 10 [] _ _ (by decide) (by decide) (by decide)).1⟩

/-- C5: a subscription with non-terminal status, a set `dateExpiry` and `now`
past it is set to `EXPIRED` and marked pending by one `validateSubscription`
pass; and when the owning user was PRO and holds no other active subscription
in the index, the user's `isPro` becomes false. -/
theorem claimC5_expiry_closure (idleDays now : Nat) (idx : List Subscription)
    (s : Subscription) (u : UserData) (e : Nat)
    (hterm : isTerminal s.status = false) (hexp : s.dateExpiry = some e)
    (hpast : e < now) :
    (validateSubscription idleDays now idx s (some u)).sub
        = some { s with status := Status.EXPIRED, pendingUpdate := true } ∧
    (u.isPro = true →
      hasOtherActiveSubscription idx u
          { s with status := Status.EXPIRED, pendingUpdate := true } = false →
      ((validateSubscription idleDays now idx s (some u)).user.map
          (fun v => v.isPro)) = some false) := by
  have hguard : (!isTerminal s.status && pastExpiry now s) = true := by
    simp [hterm, pastExpiry, hexp, hpast]
  constructor
  · simp [validateSubscription, hguard]
  · intro hpro hno
    simp [validateSubscription, hguard, hpro, switchToFree, hno]

/-- Witness for C5: a PENDING subscription past expiry, PRO user with no
other active subscription. -/
theorem claimC5_expiry_closure_witness :
    isTerminal (⟨"s1", "u1", Status.PENDING, Frequency.monthly, 0, 0, some 5,
        none, none, none, false⟩ : Subscription).status = false ∧
    (⟨"s1", "u1", Status.PENDING, Frequency.monthly, 0, 0, some 5, none, none,
        none, false⟩ : Subscription).dateExpiry = some 5 ∧
    (5 : Nat) < 10 ∧
    (⟨"u1", "Ann", true, some "s1"⟩ : UserData).isPro = true ∧
    hasOtherActiveSubscription [] ⟨"u1", "Ann", true, some "s1"⟩
        ⟨"s1", "u1", Status.EXPIRED, Frequency.monthly, 0, 0, some 5, none,
          none, none, true⟩ = false ∧
    (validateSubscription 90 10 []
        ⟨"s1", "u1", Status.PENDING, Frequency.monthly, 0, 0, some 5, none,
          none, none, false⟩
        (some ⟨"u1", "Ann", true, some "s1"⟩)).sub
      = some ⟨"s1", "u1", Status.EXPIRED, Frequency.monthly, 0, 0, some 5,
          none, none, none, true⟩ ∧
    ((validateSubscription 90 10 []
        ⟨"s1", "u1", Status.PENDING, Frequency.monthly, 0, 0, some 5, none,
          none, none, false⟩
        (some ⟨"u1", "Ann", true, some "s1"⟩)).user.map (fun v => v.isPro))
      = some false :=
  ⟨by decide, by decide, by decide, by decide, by decide,
   (claimC5_expiry_closure 90 10 [] _ _ 5 (by decide) (by decide)
      (by decide)).1,
   (claimC5_expiry_closure 90 10 [] _ _ 5 (by decide) (by decide)
      (by decide)).2 (by decide) (by decide)⟩

/-- C7 fails as stated for full reconciliation: `checkGitHub` re-marks an
already-`EXPIRED` subscription as pending on every run when the owner stays
PRO through another active subscription (the sponsor-absence branch does not
check whether the status is already `EXPIRED`).  Concretely, with user `u1`
kept PRO by active subscription `A` in the index, github subscription `G`
absent from the live sponsor list is committed by the first run and committed
again by a second run on the committed state, with no external change. -/
theorem claimC7_counterexample :
    (checkGitHubRun
        ⟨90, 100, [⟨"A", "u1", Status.ACTIVE, Frequency.monthly, 0, 0, none,
            none, none, none, false⟩],
          fun _ => false, fun _ => false,
          fun _ => ⟨Status.ACTIVE, none, 0⟩, some []⟩
        [⟨"u1", "Ann", true, some "G"⟩]
        [⟨"G", "u1", Status.ACTIVE, Frequency.monthly, 0, 0, none, none, none,
          none, false⟩]).committed ≠ [] ∧
    (checkGitHubRun
        ⟨90, 100, [⟨"A", "u1", Status.ACTIVE, Frequency.monthly, 0, 0, none,
            none, none, none, false⟩],
          fun _ => false, fun _ => false,
          fun _ => ⟨Status.ACTIVE, none, 0⟩, some []⟩
        (checkGitHubRun
          ⟨90, 100, [⟨"A", "u1", Status.ACTIVE, Frequency.monthly, 0, 0, none,
              none, none, none, false⟩],
            fun _ => false, fun _ => false,
            fun _ => ⟨Status.ACTIVE, none, 0⟩, some []⟩
          [⟨"u1", "Ann", true, some "G"⟩]
          [⟨"G", "u1", Status.ACTIVE, Frequency.monthly, 0, 0, none, none,
            none, none, false⟩]).users
        (checkGitHubRun
          ⟨90, 100, [⟨"A", "u1", Status.ACTIVE, Frequency.monthly, 0, 0, none,
              none, none, none, false⟩],
            fun _ => false, fun _ => false,
            fun _ => ⟨Status.ACTIVE, none, 0⟩, some []⟩
          [⟨"u1", "Ann", true, some "G"⟩]
          [⟨"G", "u1", Status.ACTIVE, Frequency.monthly, 0, 0, none, none,
            none, none, false⟩]).subsDb).committed ≠ [] := by
  decide

/-- C7 (amended): the commit step persists exactly the records whose
`pendingUpdate` flag is set, and re-running the validate-and-commit pipeline
(`checkNonActive`'s validation phase, the code the claim cites) on its own
committed output, at the same instant with no external change, commits
nothing and leaves the stored working set unchanged.  The provider sync
routines are not write-idempotent (see the counterexample). -/
theorem claimC7_amended (env : Env) (users : List UserData)
    (subs : List Subscription) (henv : env.userFault = fun _ => false) :
    (∀ l : List Subscription,
        saveSubscriptions l = l.filter (fun s => s.pendingUpdate)) ∧
    (checkNonActiveRun env (checkNonActiveRun env users subs).users
        (checkNonActiveRun env users subs).subsDb).committed = [] ∧
    (checkNonActiveRun env (checkNonActiveRun env users subs).users
        (checkNonActiveRun env users subs).subsDb).subsDb
      = (checkNonActiveRun env users subs).subsDb := by
  have hA1 := checkNonActiveValidateLoop_not_aborted env henv subs users
  have hpres := checkNonActiveValidateLoop_presEq env henv subs users
  have hsec := checkNonActiveValidateLoop_second env henv subs users
      (checkNonActiveValidateLoop env users subs).users hpres
  have hA2 := checkNonActiveValidateLoop_not_aborted env henv
      (((checkNonActiveValidateLoop env users subs).items.filterMap
          (fun p => p.2)).map commitSubscription)
      (checkNonActiveValidateLoop env users subs).users
  have hfm := filterMap_of_map_eq_map_some _ _ hsec
  refine ⟨saveSubscriptions_eq_filter, ?_, ?_⟩
  · simp only [checkNonActiveRun, hA1, hA2, Bool.false_eq_true, if_false]
    rw [hfm, saveSubscriptions_eq_filter, filter_pending_map_commit]
  · simp only [checkNonActiveRun, hA1, hA2, Bool.false_eq_true, if_false]
    rw [hfm, map_commit_idem]

/-- Witness for the amended C7: a past-expiry PENDING subscription is
expired and committed on the first pass; the second pass commits nothing. -/
theorem claimC7_amended_witness :
    ((⟨90, 100, [], fun _ => false, fun _ => false,
        fun _ => ⟨Status.ACTIVE, none, 0⟩, none⟩ : Env).userFault
      = fun _ => false) ∧
    (checkNonActiveRun
        ⟨90, 100, [], fun _ => false, fun _ => false,
          fun _ => ⟨Status.ACTIVE, none, 0⟩, none⟩
        (checkNonActiveRun
          ⟨90, 100, [], fun _ => false, fun _ => false,
            fun _ => ⟨Status.ACTIVE, none, 0⟩, none⟩
          [⟨"u1", "Ann", true, some "s1"⟩]
          [⟨"s1", "u1", Status.PENDING, Frequency.monthly, 0, 60, some 50,
            none, none, none, false⟩]).users
        (checkNonActiveRun
          ⟨90, 100, [], fun _ => false, fun _ => false,
            fun _ => ⟨Status.ACTIVE, none, 0⟩, none⟩
          [⟨"u1", "Ann", true, some "s1"⟩]
          [⟨"s1", "u1", Status.PENDING, Frequency.monthly, 0, 60, some 50,
            none, none, none, false⟩]).subsDb).committed = [] :=
  ⟨rfl,
   (claimC7_amended
      ⟨90, 100, [], fun _ => false, fun _ => false,
        fun _ => ⟨Status.ACTIVE, none, 0⟩, none⟩
      [⟨"u1", "Ann", true, some "s1"⟩]
      [⟨"s1", "u1", Status.PENDING, Frequency.monthly, 0, 60, some 50, none,
        none, none, false⟩] rfl).2.1⟩

/-- C10: when the live sponsor list is falsy (`none`), the sponsor-membership
check of `checkGitHub` is disabled: every item's outcome is exactly the
`validateSubscription` outcome — no status is set to `EXPIRED` by the check
and no user is downgraded by it. -/
theorem claimC10_sponsor_outage_safe (env : Env) (users : List UserData)
    (s : Subscription) (hsp : env.sponsorIds = none)
    (hf : env.userFault s.userId = false) :
    checkGitHubStep env users s =
      ((validateSubscription env.idleDays env.now env.index s
          (getById users s.userId)).sub,
       (validateSubscription env.idleDays env.now env.index s
          (getById users s.userId)).user,
       (validateSubscription env.idleDays env.now env.index s
          (getById users s.userId)).user.isNone) := by
  have hlink := validateSubscription_user_localUser_isSome env.idleDays
    env.now env.index s (getById users s.userId)
  simp only [checkGitHubStep, hf, Bool.false_eq_true, if_false]
  cases hl : (validateSubscription env.idleDays env.now env.index s
      (getById users s.userId)).localUser with
  | none =>
      have hun : (validateSubscription env.idleDays env.now env.index s
          (getById users s.userId)).user = none := by
        rw [← Option.not_isSome_iff_eq_none, hlink, hl]
        simp
      simp [hl, hun]
  | some v =>
      have hus : ((validateSubscription env.idleDays env.now env.index s
          (getById users s.userId)).user).isSome = true := by
        rw [hlink, hl]; rfl
      obtain ⟨w, hw⟩ := Option.isSome_iff_exists.mp hus
      cases hr : (validateSubscription env.idleDays env.now env.index s
          (getById users s.userId)).sub with
      | none => simp [hl, hr, hw]
      | some s1 =>
          cases hp : v.isPro with
          | false => simp [hl, hr, hp, hw]
          | true =>
              by_cases hrec : diffDays env.now s1.dateCreated < 30
              · simp [hl, hr, hp, hrec, hw]
              · simp [hl, hr, hp, hrec, hsp, hw]

/-- Witness for C10: PRO user, 100-day-old subscription, sponsor list
unavailable — the step leaves subscription and user exactly as validated. -/
theorem claimC10_sponsor_outage_safe_witness :
    ((⟨90, 100, [], fun _ => false, fun _ => false,
        fun _ => ⟨Status.ACTIVE, none, 0⟩, none⟩ : Env).sponsorIds = none) ∧
    ((⟨90, 100, [], fun _ => false, fun _ => false,
        fun _ => ⟨Status.ACTIVE, none, 0⟩, none⟩ : Env).userFault "u1"
      = false) ∧
    checkGitHubStep
        ⟨90, 100, [], fun _ => false, fun _ => false,
          fun _ => ⟨Status.ACTIVE, none, 0⟩, none⟩
        [⟨"u1", "Ann", true, some "G"⟩]
        ⟨"G", "u1", Status.ACTIVE, Frequency.monthly, 0, 0, none, none, none,
          none, false⟩
      = ((validateSubscription 90 100 []
            ⟨"G", "u1", Status.ACTIVE, Frequency.monthly, 0, 0, none, none,
              none, none, false⟩
            (getById [⟨"u1", "Ann", true, some "G"⟩] "u1")).sub,
         (validateSubscription 90 100 []
            ⟨"G", "u1", Status.ACTIVE, Frequency.monthly, 0, 0, none, none,
              none, none, false⟩
            (getById [⟨"u1", "Ann", true, some "G"⟩] "u1")).user,
         (validateSubscription 90 100 []
            ⟨"G", "u1", Status.ACTIVE, Frequency.monthly, 0, 0, none, none,
              none, none, false⟩
            (getById [⟨"u1", "Ann", true, some "G"⟩] "u1")).user.isNone) :=
  ⟨rfl, rfl,
   claimC10_sponsor_outage_safe
      ⟨90, 100, [], fun _ => false, fun _ => false,
        fun _ => ⟨Status.ACTIVE, none, 0⟩, none⟩
      [⟨"u1", "Ann", true, some "G"⟩]
      ⟨"G", "u1", Status.ACTIVE, Frequency.monthly, 0, 0, none, none, none,
        none, false⟩ rfl rfl⟩

/-- C2: for a `checkGitHub` item that passed the entitlement and recency
checks (validated user is PRO, subscription at least 30 days old, live list
fetched), the outcome "status set to `EXPIRED`, marked pending, and user
downgraded to free" occurs if and only if the subscription's id is absent
from the live sponsor list and the user has no other active subscription in
the index. -/
theorem claimC2_github_absent_expire_iff (env : Env) (users : List UserData)
    (s : Subscription) (u : UserData) (s1 : Subscription) (ids : List String)
    (hf : env.userFault s.userId = false)
    (hsp : env.sponsorIds = some ids)
    (hu : (validateSubscription env.idleDays env.now env.index s
        (getById users s.userId)).localUser = some u)
    (hs1 : (validateSubscription env.idleDays env.now env.index s
        (getById users s.userId)).sub = some s1)
    (hpro : u.isPro = true)
    (hold : ¬ diffDays env.now s1.dateCreated < 30) :
    ((∃ s2, (checkGitHubStep env users s).1 = some s2 ∧
        s2.status = Status.EXPIRED ∧ s2.pendingUpdate = true) ∧
     (∃ u2, (checkGitHubStep env users s).2.1 = some u2 ∧ u2.isPro = false))
    ↔ (s1.id ∉ ids ∧
       hasOtherActiveSubscription env.index u
         { s1 with status := Status.EXPIRED, pendingUpdate := true } = false) := by
  have husr := validateSubscription_user_of_localUser_pro env.idleDays env.now
    env.index s (getById users s.userId) u hu hpro
  simp only [checkGitHubStep, hf, Bool.false_eq_true, if_false, hu, hs1, hpro,
    husr, Bool.not_true, hsp, hold, if_false]
  by_cases hmem : s1.id ∈ ids
  · simp [hmem, hpro]
  · by_cases hoth : hasOtherActiveSubscription env.index u
        { s1 with status := Status.EXPIRED, pendingUpdate := true } = true
    · simp [hmem, hoth, switchToFree, hpro]
    · simp only [Bool.not_eq_true] at hoth
      simp [hmem, hoth, switchToFree]

/-- Witness for C2: PRO user, 100-day-old github subscription, empty live
sponsor list, no other active subscription — the iff holds at this input. -/
theorem claimC2_github_absent_expire_iff_witness :
    ((⟨90, 100, [], fun _ => false, fun _ => false,
        fun _ => ⟨Status.ACTIVE, none, 0⟩, some []⟩ : Env).userFault "u1"
      = false) ∧
    ((⟨90, 100, [], fun _ => false, fun _ => false,
        fun _ => ⟨Status.ACTIVE, none, 0⟩, some []⟩ : Env).sponsorIds
      = some []) ∧
    (validateSubscription 90 100 []
        ⟨"G", "u1", Status.ACTIVE, Frequency.monthly, 0, 0, none, none, none,
          none, false⟩
        (getById [⟨"u1", "Ann", true, some "G"⟩] "u1")).localUser
      = some ⟨"u1", "Ann", true, some "G"⟩ ∧
    (validateSubscription 90 100 []
        ⟨"G", "u1", Status.ACTIVE, Frequency.monthly, 0, 0, none, none, none,
          none, false⟩
        (getById [⟨"u1", "Ann", true, some "G"⟩] "u1")).sub
      = some ⟨"G", "u1", Status.ACTIVE, Frequency.monthly, 0, 0, none, none,
          none, none, false⟩ ∧
    (⟨"u1", "Ann", true, some "G"⟩ : UserData).isPro = true ∧
    ¬ diffDays 100 0 < 30 ∧
    (((∃ s2, (checkGitHubStep
          ⟨90, 100, [], fun _ => false, fun _ => false,
            fun _ => ⟨Status.ACTIVE, none, 0⟩, some []⟩
          [⟨"u1", "Ann", true, some "G"⟩]
          ⟨"G", "u1", Status.ACTIVE, Frequency.monthly, 0, 0, none, none,
            none, none, false⟩).1 = some s2 ∧
        s2.status = Status.EXPIRED ∧ s2.pendingUpdate = true) ∧
      (∃ u2, (checkGitHubStep
          ⟨90, 100, [], fun _ => false, fun _ => false,
            fun _ => ⟨Status.ACTIVE, none, 0⟩, some []⟩
          [⟨"u1", "Ann", true, some "G"⟩]
          ⟨"G", "u1", Status.ACTIVE, Frequency.monthly, 0, 0, none, none,
            none, none, false⟩).2.1 = some u2 ∧ u2.isPro = false))
    ↔ ((⟨"G", "u1", Status.ACTIVE, Frequency.monthly, 0, 0, none, none, none,
          none, false⟩ : Subscription).id ∉ ([] : List String) ∧
       hasOtherActiveSubscription [] ⟨"u1", "Ann", true, some "G"⟩
         { (⟨"G", "u1", Status.ACTIVE, Frequency.monthly, 0, 0, none, none,
              none, none, false⟩ : Subscription) with
            status := Status.EXPIRED, pendingUpdate := true } = false)) :=
  ⟨rfl, rfl, by decide, by decide, by decide, by decide,
   claimC2_github_absent_expire_iff
      ⟨90, 100, [], fun _ => false, fun _ => false,
        fun _ => ⟨Status.ACTIVE, none, 0⟩, some []⟩
      [⟨"u1", "Ann", true, some "G"⟩]
      ⟨"G", "u1", Status.ACTIVE, Frequency.monthly, 0, 0, none, none, none,
        none, false⟩
      ⟨"u1", "Ann", true, some "G"⟩
      ⟨"G", "u1", Status.ACTIVE, Frequency.monthly, 0, 0, none, none, none,
        none, false⟩ []
      rfl rfl (by decide) (by decide) (by decide) (by decide)⟩

lemma syncPaymentData_frequency (live : PayPalLive) (s : Subscription) :
    (syncPaymentData live s).frequency = s.frequency := by
  simp only [syncPaymentData]
  split
  · split
    · rfl
    · rfl
  · rfl

/-- C6 fails as stated for lifetime subscriptions: the recency skip only
applies when `frequency != "lifetime"`, so a lifetime subscription created
one week ago still reaches the live fetch and the payment-data sync, which
overwrites `lastPayment`, `price`, `currency` and sets `pendingUpdate`.
The concrete input below is 5 days old (well under 4 weeks), is untouched by
`validateSubscription`, yet leaves the step with changed payment fields. -/
theorem claimC6_counterexample :
    diffWeeks 100 95 < 4 ∧
    (validateSubscription 90 100 []
        ⟨"L", "u1", Status.ACTIVE, Frequency.lifetime, 95, 95, none,
          some ⟨50, 500, "USD"⟩, some 500, some "USD", false⟩
        (getById [⟨"u1", "Ann", true, some "L"⟩] "u1")).sub
      = some ⟨"L", "u1", Status.ACTIVE, Frequency.lifetime, 95, 95, none,
          some ⟨50, 500, "USD"⟩, some 500, some "USD", false⟩ ∧
    (checkPayPalStep
        ⟨90, 100, [], fun _ => false, fun _ => false,
          fun _ => ⟨Status.ACTIVE, some ⟨99, 600, "USD"⟩, 99⟩, none⟩
        [⟨"u1", "Ann", true, some "L"⟩]
        ⟨"L", "u1", Status.ACTIVE, Frequency.lifetime, 95, 95, none,
          some ⟨50, 500, "USD"⟩, some 500, some "USD", false⟩).1
      = some ⟨"L", "u1", Status.ACTIVE, Frequency.lifetime, 95, 95, none,
          some ⟨99, 600, "USD"⟩, some 600, some "USD", true⟩ := by
  decide

/-- C6 (amended): for every *non-lifetime* billing-provider subscription
created less than 4 weeks before the run, `checkPayPal` applies none of the
provider-diffing steps: the item outcome is exactly the
`validateSubscription` outcome, so `lastPayment`, `price`, `currency`,
`status` are unchanged by those steps and no user is downgraded by them. -/
theorem claimC6_amended (env : Env) (users : List UserData) (s : Subscription)
    (hf : env.userFault s.userId = false)
    (hfreq : s.frequency ≠ Frequency.lifetime)
    (hrec : diffWeeks env.now s.dateCreated < 4) :
    checkPayPalStep env users s =
      ((validateSubscription env.idleDays env.now env.index s
          (getById users s.userId)).sub,
       (validateSubscription env.idleDays env.now env.index s
          (getById users s.userId)).user, false) := by
  simp only [checkPayPalStep, hf, Bool.false_eq_true, if_false]
  cases hl : (validateSubscription env.idleDays env.now env.index s
      (getById users s.userId)).localUser with
  | none => simp [hl]
  | some v =>
      cases hr : (validateSubscription env.idleDays env.now env.index s
          (getById users s.userId)).sub with
      | none => simp [hl, hr]
      | some s1 =>
          have hfields := validateSubscription_sub_fields env.idleDays env.now
            env.index s s1 (getById users s.userId) hr
          have hfreq1 : s1.frequency ≠ Frequency.lifetime := by
            rw [hfields.2.2.1]; exact hfreq
          have hrec1 : diffWeeks env.now s1.dateCreated < 4 := by
            rw [hfields.2.2.2.1]; exact hrec
          cases hp : v.isPro with
          | false => simp [hl, hr, hp]
          | true => simp [hl, hr, hp, hfreq1, hrec1]

/-- Witness for the amended C6: a two-week-old monthly subscription with a
mismatching live payment record is left exactly as validated. -/
theorem claimC6_amended_witness :
    ((⟨90, 100, [], fun _ => false, fun _ => false,
        fun _ => ⟨Status.SUSPENDED, some ⟨99, 600, "USD"⟩, 99⟩, none⟩ :
          Env).userFault "u1" = false) ∧
    (⟨"M", "u1", Status.ACTIVE, Frequency.monthly, 86, 86, none,
        some ⟨50, 500, "USD"⟩, some 500, some "USD", false⟩ :
          Subscription).frequency ≠ Frequency.lifetime ∧
    diffWeeks 100 86 < 4 ∧
    checkPayPalStep
        ⟨90, 100, [], fun _ => false, fun _ => false,
          fun _ => ⟨Status.SUSPENDED, some ⟨99, 600, "USD"⟩, 99⟩, none⟩
        [⟨"u1", "Ann", true, some "M"⟩]
        ⟨"M", "u1", Status.ACTIVE, Frequency.monthly, 86, 86, none,
          some ⟨50, 500, "USD"⟩, some 500, some "USD", false⟩
      = ((validateSubscription 90 100 []
            ⟨"M", "u1", Status.ACTIVE, Frequency.monthly, 86, 86, none,
              some ⟨50, 500, "USD"⟩, some 500, some "USD", false⟩
            (getById [⟨"u1", "Ann", true, some "M"⟩] "u1")).sub,
         (validateSubscription 90 100 []
            ⟨"M", "u1", Status.ACTIVE, Frequency.monthly, 86, 86, none,
              some ⟨50, 500, "USD"⟩, some 500, some "USD", false⟩
            (getById [⟨"u1", "Ann", true, some "M"⟩] "u1")).user, false) :=
  ⟨rfl, by decide, by decide,
   claimC6_amended
      ⟨90, 100, [], fun _ => false, fun _ => false,
        fun _ => ⟨Status.SUSPENDED, some ⟨99, 600, "USD"⟩, 99⟩, none⟩
      [⟨"u1", "Ann", true, some "M"⟩]
      ⟨"M", "u1", Status.ACTIVE, Frequency.monthly, 86, 86, none,
        some ⟨50, 500, "USD"⟩, some 500, some "USD", false⟩
      rfl (by decide) (by decide)⟩

/-- C1: for a `checkPayPal` item that reached the provider-diffing steps
(validated user PRO, non-lifetime, at least 4 weeks old, live fetch
succeeded) whose possibly-just-adopted status is terminal, the grace-period
expiry is the live last-payment date plus 4 weeks for `monthly` and plus 11
months otherwise, and the user ends up downgraded to free if and only if
`now` is past that expiry and the user has no other active subscription in
the index. -/
theorem claimC1_paypal_grace_downgrade_iff (env : Env) (users : List UserData)
    (s : Subscription) (u : UserData) (s1 : Subscription) (lp : PaymentInfo)
    (hf : env.userFault s.userId = false)
    (hpf : env.paypalFault s.id = false)
    (hu : (validateSubscription env.idleDays env.now env.index s
        (getById users s.userId)).localUser = some u)
    (hs1 : (validateSubscription env.idleDays env.now env.index s
        (getById users s.userId)).sub = some s1)
    (hpro : u.isPro = true)
    (hfreq : s1.frequency ≠ Frequency.lifetime)
    (hold : ¬ diffWeeks env.now s1.dateCreated < 4)
    (hlp : (env.paypalLive s.id).lastPayment = some lp)
    (hterm : isTerminal (adoptLiveStatus (env.paypalLive s.id)
        (syncPaymentData (env.paypalLive s.id) s1)).status = true) :
    graceExpiryDate (env.paypalLive s.id)
        (adoptLiveStatus (env.paypalLive s.id)
          (syncPaymentData (env.paypalLive s.id) s1))
      = (if (adoptLiveStatus (env.paypalLive s.id)
              (syncPaymentData (env.paypalLive s.id) s1)).frequency
            = Frequency.monthly
         then lp.date + weeksToDays 4 else lp.date + monthsToDays 11) ∧
    ((∃ u2, (checkPayPalStep env users s).2.1 = some u2 ∧ u2.isPro = false)
      ↔ (graceExpiryDate (env.paypalLive s.id)
            (adoptLiveStatus (env.paypalLive s.id)
              (syncPaymentData (env.paypalLive s.id) s1)) < env.now ∧
         hasOtherActiveSubscription env.index u
            (adoptLiveStatus (env.paypalLive s.id)
              (syncPaymentData (env.paypalLive s.id) s1)) = false)) := by
  have hlf : (syncPaymentData (env.paypalLive s.id) s1).frequency
      ≠ Frequency.lifetime := by
    rw [syncPaymentData_frequency]; exact hfreq
  constructor
  · simp [graceExpiryDate, hlp]
  · simp only [checkPayPalStep, hf, Bool.false_eq_true, if_false, hu, hs1,
      hpro, Bool.not_true, hold, and_false, if_false, hpf,
      paypalProviderSync, hlf, hterm, if_true]
    by_cases hgt : graceExpiryDate (env.paypalLive s.id)
        (adoptLiveStatus (env.paypalLive s.id)
          (syncPaymentData (env.paypalLive s.id) s1)) < env.now
    · by_cases hoth : hasOtherActiveSubscription env.index u
          (adoptLiveStatus (env.paypalLive s.id)
            (syncPaymentData (env.paypalLive s.id) s1)) = true
      · simp [hgt, hoth, switchToFree, hpro]
      · simp only [Bool.not_eq_true] at hoth
        simp [hgt, hoth, switchToFree]
    · simp [hgt, hpro]

/-- Witness for C1: `subC1` (monthly, last live payment day 50, locally
ACTIVE) with live status SUSPENDED at day 100 and no other active
subscription — the grace deadline 50 + 28 = 78 has passed and `userC1` is
downgraded. -/
theorem claimC1_paypal_grace_downgrade_iff_witness :
    envC1.userFault subC1.userId = false ∧
    envC1.paypalFault subC1.id = false ∧
    (validateSubscription envC1.idleDays envC1.now envC1.index subC1
        (getById [userC1] subC1.userId)).localUser = some userC1 ∧
    (validateSubscription envC1.idleDays envC1.now envC1.index subC1
        (getById [userC1] subC1.userId)).sub = some subC1 ∧
    userC1.isPro = true ∧
    subC1.frequency ≠ Frequency.lifetime ∧
    ¬ diffWeeks envC1.now subC1.dateCreated < 4 ∧
    (envC1.paypalLive subC1.id).lastPayment = some ⟨50, 500, "USD"⟩ ∧
    isTerminal (adoptLiveStatus (envC1.paypalLive subC1.id)
        (syncPaymentData (envC1.paypalLive subC1.id) subC1)).status = true ∧
    ((∃ u2, (checkPayPalStep envC1 [userC1] subC1).2.1 = some u2 ∧
        u2.isPro = false)
      ↔ (graceExpiryDate (envC1.paypalLive subC1.id)
            (adoptLiveStatus (envC1.paypalLive subC1.id)
              (syncPaymentData (envC1.paypalLive subC1.id) subC1))
            < envC1.now ∧
         hasOtherActiveSubscription envC1.index userC1
            (adoptLiveStatus (envC1.paypalLive subC1.id)
              (syncPaymentData (envC1.paypalLive subC1.id) subC1)) = false)) :=
  ⟨by decide, by decide, by decide, by decide, by decide, by decide,
   by decide, by decide, by decide,
   (claimC1_paypal_grace_downgrade_iff envC1 [userC1] subC1 userC1 subC1
      ⟨50, 500, "USD"⟩ (by decide) (by decide) (by decide) (by decide)
      (by decide) (by decide) (by decide) (by decide) (by decide)).2⟩

/-- C4 fails as stated: `checkNonActive`'s validation loop has no per-item
`try`, so a `core.users.getById` failure on the first item reaches the
routine-level catch, the second item (whose clean processing would commit an
expiry) is never processed, and the commit step is skipped — the same input
without the fault commits a record. -/
theorem claimC4_counterexample :
    (checkNonActiveRun envC4 [] [subC4n, subC4b]).committed = [] ∧
    (checkNonActiveRun envC4 [] [subC4n, subC4b]).processedCount = 0 ∧
    (checkNonActiveRun envC4ok [] [subC4n, subC4b]).committed ≠ [] := by
  decide

/-- C4 (amended): in the `checkGitHub` and `checkPayPal` loops and in
`checkNonActive`'s dangling-subscription loop a per-item failure is caught
and the loop continues — the items after the failing one are processed from
the state the caught item left behind, the commit step covers the whole
working set in the provider loops, and the dangling loop still deletes every
listed subscription (only the faulting item's `subscriptionId` repair is
skipped); in `checkNonActive`'s validation loop (which has no per-item
`try`) a failure aborts the remaining items and prevents the commit. -/
theorem claimC4_amended (env : Env)
    (usersG : List UserData) (preG : List Subscription) (bG : Subscription)
    (postG : List Subscription)
    (usersP : List UserData) (preP : List Subscription) (bP : Subscription)
    (postP : List Subscription)
    (usersD : List UserData) (preD : List Subscription) (bD : Subscription)
    (postD : List Subscription)
    (usersN : List UserData) (bN : Subscription) (postN : List Subscription)
    (hG : (checkGitHubStep env (checkGitHubLoop env usersG preG).users bG).2.2
        = true)
    (hP : (checkPayPalStep env (checkPayPalLoop env usersP preP).users bP).2.2
        = true)
    (hD : env.userFault bD.userId = true)
    (hN : env.userFault bN.userId = true) :
    ((checkGitHubLoop env usersG (preG ++ bG :: postG)).items.length
        = preG.length + 1 + postG.length ∧
     (checkGitHubLoop env usersG (preG ++ bG :: postG)).items
        = (checkGitHubLoop env usersG preG).items
          ++ ((checkGitHubStep env (checkGitHubLoop env usersG preG).users
                bG).1, true)
            :: (checkGitHubLoop env
                (match (checkGitHubStep env
                    (checkGitHubLoop env usersG preG).users bG).2.1 with
                 | some u => putUser (checkGitHubLoop env usersG preG).users u
                 | none => (checkGitHubLoop env usersG preG).users)
                postG).items) ∧
    ((checkPayPalLoop env usersP (preP ++ bP :: postP)).items.length
        = preP.length + 1 + postP.length ∧
     (checkPayPalLoop env usersP (preP ++ bP :: postP)).items
        = (checkPayPalLoop env usersP preP).items
          ++ ((checkPayPalStep env (checkPayPalLoop env usersP preP).users
                bP).1, true)
            :: (checkPayPalLoop env
                (match (checkPayPalStep env
                    (checkPayPalLoop env usersP preP).users bP).2.1 with
                 | some u => putUser (checkPayPalLoop env usersP preP).users u
                 | none => (checkPayPalLoop env usersP preP).users)
                postP).items) ∧
    ((checkNonActiveDanglingLoop env usersD (preD ++ bD :: postD)).2
        = (preD ++ bD :: postD).map (fun t => t.id) ∧
     checkNonActiveDanglingLoop env usersD (preD ++ bD :: postD)
        = ((checkNonActiveDanglingLoop env
              (checkNonActiveDanglingLoop env usersD preD).1 postD).1,
           (checkNonActiveDanglingLoop env usersD preD).2
             ++ bD.id :: (checkNonActiveDanglingLoop env
                  (checkNonActiveDanglingLoop env usersD preD).1 postD).2)) ∧
    ((checkNonActiveRun env usersN (bN :: postN)).committed = [] ∧
     (checkNonActiveRun env usersN (bN :: postN)).processedCount = 0 ∧
     (checkNonActiveRun env usersN (bN :: postN)).aborted = true) := by
  refine ⟨⟨?_, ?_⟩, ⟨?_, ?_⟩, ⟨?_, ?_⟩, ?_⟩
  · rw [checkGitHubLoop_append env preG (bG :: postG) usersG]
    simp [checkGitHubLoop_length, checkGitHubLoop]
    omega
  · rw [checkGitHubLoop_append env preG (bG :: postG) usersG]
    simp only [checkGitHubLoop]
    rw [hG]
  · rw [checkPayPalLoop_append env preP (bP :: postP) usersP]
    simp [checkPayPalLoop_length, checkPayPalLoop]
    omega
  · rw [checkPayPalLoop_append env preP (bP :: postP) usersP]
    simp only [checkPayPalLoop]
    rw [hP]
  · exact checkNonActiveDanglingLoop_deleted env (preD ++ bD :: postD) usersD
  · rw [checkNonActiveDanglingLoop_append env preD (bD :: postD) usersD]
    simp [checkNonActiveDanglingLoop, hD]
  · refine ⟨?_, ?_, ?_⟩ <;>
      simp [checkNonActiveRun, checkNonActiveValidateLoop, hN]

/-- Witness for the amended C4: `subC4g`'s user record is missing (TypeError
caught in the github loop), `subC4p`'s live fetch throws (caught in the
PayPal loop), and `subC4n`'s user lookup throws in `checkNonActive`'s
validation loop, aborting it. -/
theorem claimC4_amended_witness :
    (checkGitHubStep envC4 (checkGitHubLoop envC4 [] []).users subC4g).2.2
        = true ∧
    (checkPayPalStep envC4 (checkPayPalLoop envC4 [userC4p] []).users
        subC4p).2.2 = true ∧
    envC4.userFault subC4n.userId = true ∧
    ((checkGitHubLoop envC4 [] ([] ++ subC4g :: [])).items.length
        = 0 + 1 + 0) ∧
    ((checkNonActiveDanglingLoop envC4 [] ([] ++ subC4n :: [subC4b])).2
        = (([] : List Subscription) ++ subC4n :: [subC4b]).map
            (fun t => t.id)) ∧
    ((checkNonActiveRun envC4 [] (subC4n :: [])).committed = [] ∧
     (checkNonActiveRun envC4 [] (subC4n :: [])).processedCount = 0 ∧
     (checkNonActiveRun envC4 [] (subC4n :: [])).aborted = true) :=
  ⟨by decide, by decide, by decide,
   by
     have h := (claimC4_amended envC4 [] [] subC4g [] [userC4p] [] subC4p []
        [] [] subC4n [subC4b] [] subC4n [] (by decide) (by decide)
        (by decide) (by decide)).1.1
     simpa using h,
   (claimC4_amended envC4 [] [] subC4g [] [userC4p] [] subC4p []
      [] [] subC4n [subC4b] [] subC4n [] (by decide) (by decide) (by decide)
      (by decide)).2.2.1.1,
   (claimC4_amended envC4 [] [] subC4g [] [userC4p] [] subC4p []
      [] [] subC4n [subC4b] [] subC4n [] (by decide) (by decide) (by decide)
      (by decide)).2.2.2⟩

end Strautomator
